import Mathlib

/-!
Verification of the session-cycle scheduler `autonomous_scheduler.py`.

The Python module is shallowly embedded: module-level constants become Lean
constants, each Python function becomes a Lean function over explicit inputs,
process-global mutable state (`session_count`, `cycle_start_time`) becomes an
explicit `SchedState` value threaded through `run_session`, and every effectful
interaction (reading the diary file, launching the email subprocess, launching
the `claude` subprocess, reading the wall clock) becomes a field of an
environment value describing what the outside world did on that invocation.
Caught Python exceptions become explicit constructors of those environment
types; the `except` handlers become the corresponding `match` arms, so the
embedded functions are total exactly because the Python functions never let an
exception escape.
-/

namespace AutoSched

/-- Schedule setting `SESSION_INTERVAL_MINUTES = 30` from the configuration
block of `autonomous_scheduler.py`. -/
def SESSION_INTERVAL_MINUTES : Nat := 30

/-- Schedule setting `SESSION_TIMEOUT_MINUTES = 120`. -/
def SESSION_TIMEOUT_MINUTES : Nat := 120

/-- Schedule setting `MAX_SESSIONS = 5` (sessions per cycle). -/
def MAX_SESSIONS : Nat := 5

/-- Model of Python's `sep.join(list)`: the empty string on an empty list,
otherwise the elements interleaved with `sep`. -/
def pyJoin (sep : String) : List String → String
  | [] => ""
  | [x] => x
  | x :: y :: xs => x ++ sep ++ pyJoin sep (y :: xs)

/-- Model of Python truthiness on an optional string (`if custom_msg:`):
`None` and the empty string are falsy, every other string truthy. -/
def pyTruthyStr : Option String → Bool
  | none => false
  | some s => s ≠ ""

/-- Decide whether `needle` occurs as a contiguous substring of `hay`,
modelling Python's `needle in hay` on strings (character-list level). -/
def subOccursL (needle : List Char) : List Char → Bool
  | [] => needle.isEmpty
  | c :: rest => (c :: rest).take needle.length == needle || subOccursL needle rest

/-- String wrapper for `subOccursL`: Python's `"x" in s`. -/
def pyInStr (needle hay : String) : Bool :=
  subOccursL needle.data hay.data

/-- Model of Python's `s.split(sep)` for a one-character separator (the source
only splits on `"\n"`): every occurrence of the separator ends a field, so the
result always has one more field than there are separators. -/
def splitChar (sep : Char) : List Char → List (List Char)
  | [] => [[]]
  | c :: rest =>
    match splitChar sep rest with
    | [] => [[]]
    | w :: ws => if c = sep then [] :: w :: ws else (c :: w) :: ws

/-- Model of Python's `line.startswith(pat)` at the character-list level. -/
def startsWithL (pat l : List Char) : Bool := l.take pat.length == pat

/-- Worker for `replaceL`: scans left to right, emitting `rep` and arranging
(via the `skip` counter) to consume the rest of `pat` whenever `pat` matches
at the current position, copying the character otherwise. -/
def replaceGo (pat rep : List Char) (skip : Nat) : List Char → List Char
  | [] => []
  | c :: rest =>
    match skip with
    | n + 1 => replaceGo pat rep n rest
    | 0 =>
      if startsWithL pat (c :: rest) && !pat.isEmpty then
        rep ++ replaceGo pat rep (pat.length - 1) rest
      else c :: replaceGo pat rep 0 rest

/-- Model of Python's `s.replace(pat, rep)` for a non-empty pattern: replaces
every non-overlapping occurrence, scanning left to right. -/
def replaceL (pat rep l : List Char) : List Char := replaceGo pat rep 0 l

/-- Model of Python's `s.strip()`: whitespace removed from both ends. -/
def trimL (l : List Char) : List Char :=
  ((l.dropWhile Char.isWhitespace).reverse.dropWhile Char.isWhitespace).reverse

/-- One diary entry as far as `check_diary_written` reads it: the value of its
`datetime` key (`none` when the key is absent, in which case `.get` returns the
falsy default `''`). A non-string value under the key would make `strptime`
raise, which the catch-all turns into `False`; such stores are covered by
`DiaryStore.readError` below. -/
structure DiaryEntry where
  datetime : Option String
deriving DecidableEq

/-- The state of the diary store as observed by `check_diary_written`:
the file is absent; or opening / `json.load`-ing it raises (including the case
of JSON that is not a list of objects, where indexing `[-1]` or `.get` raises
and the catch-all handler fires); or it parses to a list of entries. -/
inductive DiaryStore where
  | absent
  | readError
  | parsed (entries : List DiaryEntry)
deriving DecidableEq

/-- Numeric reading of a decimal digit character. -/
def digitVal (c : Char) : Nat := c.toNat - 48

/-- Mixed-radix encoding of a calendar timestamp (y, mo, d, h, mi, s); since
every field is range-bounded the encoding is strictly monotone in the
lexicographic field order, so `datetime` comparison in Python coincides with
`Nat` comparison of encodings. -/
def encodeDT (y mo d h mi s : Nat) : Nat :=
  ((((y * 13 + mo) * 32 + d) * 24 + h) * 60 + mi) * 60 + s

/-- Model of `datetime.strptime(s, "%Y-%m-%d %H:%M:%S")`: succeeds exactly on
a 19-character `YYYY-MM-DD HH:MM:SS` rendering with in-range fields, returning
the encoded timestamp; returns `none` where CPython raises `ValueError`
(the caller's catch-all turns that into `False`). -/
def strptimeDT (s : String) : Option Nat :=
  match s.data with
  | [y1, y2, y3, y4, sep1, m1, m2, sep2, d1, d2, sp, h1, h2, c1, i1, i2, c2, s1, s2] =>
    if ([y1, y2, y3, y4, m1, m2, d1, d2, h1, h2, i1, i2, s1, s2].all Char.isDigit
        && sep1 == '-' && sep2 == '-' && sp == ' ' && c1 == ':' && c2 == ':') then
      let y := ((digitVal y1 * 10 + digitVal y2) * 10 + digitVal y3) * 10 + digitVal y4
      let mo := digitVal m1 * 10 + digitVal m2
      let d := digitVal d1 * 10 + digitVal d2
      let h := digitVal h1 * 10 + digitVal h2
      let mi := digitVal i1 * 10 + digitVal i2
      let sec := digitVal s1 * 10 + digitVal s2
      if 1 ≤ mo && mo ≤ 12 && 1 ≤ d && d ≤ 31 && h ≤ 23 && mi ≤ 59 && sec ≤ 59 then
        some (encodeDT y mo d h mi sec)
      else none
    else none
  | _ => none

/-- Embedding of `check_diary_written` (lines 48-71). `cycle_start` is the
encoded value of the global `cycle_start_time` the Python body compares
against. Absent file, read/parse error, empty list, missing or empty
`datetime` string, and failed `strptime` all return `false` — each of those
paths is an explicit `return False` or lands in the `except` handler; only a
parsed timestamp strictly greater than `cycle_start` returns `true`. -/
def check_diary_written (store : DiaryStore) (cycle_start : Nat) : Bool :=
  match store with
  | .absent => false
  | .readError => false
  | .parsed entries =>
    match entries.getLast? with
    | none => false
    | some latest =>
      let latest_datetime_str := latest.datetime.getD ""
      if latest_datetime_str = "" then false
      else
        match strptimeDT latest_datetime_str with
        | none => false
        | some t => decide (cycle_start < t)

/-- What launching the `receive_email.py` subprocess did: the script file was
missing (checked before launching), the process exited with a code and
captured output, the 30-second timeout fired (`subprocess.TimeoutExpired`),
or some other exception was raised. -/
inductive EmailLaunch where
  | scriptMissing
  | exited (code : Int) (stdout : String) (stderr : String)
  | timedOut
  | raised (msg : String)
deriving DecidableEq

/-- The dictionary `{"count": ..., "emails": [...]}` returned by
`check_unread_emails` on success. -/
structure EmailResult where
  count : Nat
  emails : List String
deriving DecidableEq

/-- Embedding of `check_unread_emails` (lines 74-112): missing script,
non-zero exit, timeout, and any raised exception yield `none`; an exit-0
output containing `No emails found` yields the empty result; otherwise the
lines starting with the subject marker are stripped and collected, and the
returned count is the length of that list. -/
def check_unread_emails (launch : EmailLaunch) : Option EmailResult :=
  match launch with
  | .scriptMissing => none
  | .timedOut => none
  | .raised _ => none
  | .exited code stdout _ =>
    if code ≠ 0 then none
    else if pyInStr "No emails found" stdout then some ⟨0, []⟩
    else
      let emails := ((splitChar '\n' stdout.data).filter
          (fun line => startsWithL "📌 Subject:".data line)).map
          (fun line => String.mk (trimL (replaceL "📌 Subject:".data [] line)))
      some ⟨emails.length, emails⟩

/-- The expanded final-step block of `build_system_message` (the `is_final`
branch, lines 123-137). -/
def finalBlock : List String :=
  ["【Session " ++ toString MAX_SESSIONS ++ "/" ++ toString MAX_SESSIONS
      ++ " - Reflection & Diary】",
   "This session is for:",
   "",
   "【Diary】",
   "- Record today's activities to experiences.jsonl",
   "- Write diary entry (python tools/update_diary.py)",
   "",
   "【Memory Organization】",
   "- Review working_memory.md",
   "- Move important info to long-term memory",
   "",
   "After this session, a new cycle begins."]

/-- The email-notice section of `build_system_message` (lines 142-149):
emitted only when a result is present with positive count; lists at most the
first five subjects. -/
def emailBlock (email_result : Option EmailResult) : List String :=
  match email_result with
  | none => []
  | some r =>
    if r.count > 0 then
      ["", "📬 You have " ++ toString r.count ++ " unread email(s):"]
        ++ (r.emails.take 5).map (fun subject => "  - " ++ subject)
        ++ ["Use 'python tools/receive_email.py --unread' to read them."]
    else []

/-- The custom-message section of `build_system_message` (lines 151-152);
`if custom_msg:` is Python truthiness, so `None` and `""` emit nothing. -/
def customBlock (custom_msg : Option String) : List String :=
  if pyTruthyStr custom_msg then ["", "Message: " ++ custom_msg.getD ""] else []

/-- The list `messages` that `build_system_message` (lines 115-154)
accumulates before joining; `now` is the strftime rendering of
`datetime.now()`. -/
def build_messages (now : String) (session_num : Nat) (is_final : Bool)
    (custom_msg : Option String) (email_result : Option EmailResult) :
    List String :=
  ["System notification:", "Current time: " ++ now]
    ++ (if is_final then finalBlock
        else ["Session " ++ toString session_num ++ "/" ++ toString MAX_SESSIONS])
    ++ emailBlock email_result
    ++ customBlock custom_msg

/-- Embedding of `build_system_message`: the accumulated lines joined by
newlines (`"\n".join(messages)`). -/
def build_system_message (now : String) (session_num : Nat) (is_final : Bool)
    (custom_msg : Option String) (email_result : Option EmailResult) : String :=
  pyJoin "\n" (build_messages now session_num is_final custom_msg email_result)

/-- What launching the `claude` session subprocess (wrapped in the OS `timeout`
command) did: it exited with a code, the Python-level supervisory timeout of
`SESSION_TIMEOUT_MINUTES * 60 + 60` seconds fired (`subprocess.TimeoutExpired`),
or some other exception was raised (binary missing, I/O error, ...). -/
inductive LaunchResult where
  | exited (code : Int)
  | supervisoryTimeout
  | raised (msg : String)
deriving DecidableEq

/-- The three-way outcome classification of one session invocation: the spec's
`SessionOutcome` tagged variant. In the source the classification is observable
as which log line the `try`/`except` block of `run_session` emits; `failed`
carries that log line's human-readable cause. -/
inductive SessionOutcome where
  | completed
  | timedOut
  | failed (reason : String)
deriving DecidableEq

/-- The outcome classification performed by the `try`/`except` block of
`run_session` (lines 194-212), one arm per log branch: exit 0 → "completed
normally" (`completed`); exit 124, the sentinel of the `timeout` wrapper →
"timed out" (`timedOut`); any other exit code → "exited with code N"; the
supervisory `subprocess.TimeoutExpired` → "timed out (Python level)"; any
other exception → "error: ..." — the last three are the `failed` cases,
each carrying the corresponding log text as its reason. -/
def classifyOutcome : LaunchResult → SessionOutcome
  | .exited 0 => .completed
  | .exited 124 => .timedOut
  | .exited code => .failed ("exited with code " ++ toString code)
  | .supervisoryTimeout => .failed "timed out (Python level)"
  | .raised msg => .failed ("error: " ++ msg)

/-- The process-global mutable session tracking of the module: the globals
`session_count` and `cycle_start_time` (lines 33-35). `cycle_start` holds the
encoded `datetime.now()` captured when a cycle started, `none` being the
initial `None` sentinel. -/
structure SchedState where
  session_count : Nat
  cycle_start : Option Nat
deriving DecidableEq

/-- The cold-start state: `session_count = 0`, `cycle_start_time = None`. -/
def coldState : SchedState := ⟨0, none⟩

/-- Everything the outside world contributes to one `run_session` invocation:
the wall clock read by `datetime.now()` (`nowT` the datetime value, `nowStr`
its strftime rendering — two views of the same instant), the behavior of the
email subprocess, the behavior of the `claude` subprocess, and the contents of
the diary store during the invocation. -/
structure SessionEnv where
  nowT : Nat
  nowStr : String
  emailLaunch : EmailLaunch
  claudeLaunch : LaunchResult
  diary : DiaryStore
deriving DecidableEq

/-- The observable effects of one `run_session` invocation: the step number it
logs (`session_count` after the increment), the composed system message, the
subprocess command line, and the outcome classification of the launch. -/
structure SessionObs where
  step : Nat
  message : String
  cmd : List String
  outcome : SessionOutcome
deriving DecidableEq

/-- Embedding of `run_session` (lines 157-217); `custom` is the module global
`custom_message` set once by `main`. Increments the counter, stamps
`cycle_start_time` when the incremented counter is 1, checks email, composes
the message, builds the command (appending `--continue` exactly when
`1 < session_count < MAX_SESSIONS`), classifies the launch outcome, and resets
the counter to 0 when it has reached `MAX_SESSIONS`. The diary store is a
field of the environment but — like the Python body, which never calls
`check_diary_written` — the function never reads it. -/
def run_session (custom : Option String) (env : SessionEnv) (st : SchedState) :
    SchedState × SessionObs :=
  let session_count := st.session_count + 1
  let cycle_start :=
    if session_count = 1 then some env.nowT else st.cycle_start
  let email_result := check_unread_emails env.emailLaunch
  let is_final := session_count = MAX_SESSIONS
  let system_message :=
    build_system_message env.nowStr session_count is_final custom email_result
  let cmd :=
    ["timeout", toString SESSION_TIMEOUT_MINUTES ++ "m",
     "claude", "--print", system_message]
      ++ (if 1 < session_count ∧ session_count < MAX_SESSIONS
          then ["--continue"] else [])
  let outcome := classifyOutcome env.claudeLaunch
  let session_count' := if MAX_SESSIONS ≤ session_count then 0 else session_count
  (⟨session_count', cycle_start⟩,
   ⟨session_count, system_message, cmd, outcome⟩)

/-- The observations produced by a sequence of `run_session` invocations,
threading the global state through. -/
def runTrace (custom : Option String) : List SessionEnv → SchedState → List SessionObs
  | [], _ => []
  | env :: envs, st =>
    let r := run_session custom env st
    r.2 :: runTrace custom envs r.1

/-- The global state left after a sequence of `run_session` invocations. -/
def runState (custom : Option String) : List SessionEnv → SchedState → SchedState
  | [], st => st
  | env :: envs, st => runState custom envs (run_session custom env st).1

/-- The `cycle_start_time` value produced by running the environments in
`envs` when the invocation receiving the head of `envs` observes step
`k % MAX_SESSIONS + 1`: the clock value of the latest invocation whose
observed step number is 1, or `none` when no such invocation occurs (then the
previous value persists). -/
def lastCycleStart (k : Nat) : List SessionEnv → Option Nat
  | [] => none
  | env :: envs =>
    match lastCycleStart (k + 1) envs with
    | some t => some t
    | none => if k % MAX_SESSIONS = 0 then some env.nowT else none

/-- `o` when it is `some`, otherwise the fallback `d`. -/
def orO (o d : Option Nat) : Option Nat :=
  match o with
  | some t => some t
  | none => d

/-- Model of Python's `int(s)` as used by `argparse` with `type=int`:
surrounding whitespace stripped, optional sign, then a non-empty digit string;
anything else raises `ValueError`, which argparse turns into an exit-2 usage
error. (CPython's underscore grouping is not modelled; no claim depends on
it.) -/
def pyInt (s : String) : Option Int :=
  let digits : List Char → Option Nat := fun l =>
    if l ≠ [] && l.all Char.isDigit then
      some (l.foldl (fun acc c => acc * 10 + digitVal c) 0)
    else none
  match trimL s.data with
  | [] => none
  | c :: rest =>
    if c = '-' then (digits rest).map (fun n => -(n : Int))
    else if c = '+' then (digits rest).map (fun n => (n : Int))
    else (digits (c :: rest)).map (fun n => (n : Int))

/-- The `--interval` value `main`'s argparse produces: the default
`SESSION_INTERVAL_MINUTES` when the flag is absent, the parsed integer when
present, `none` when parsing fails (argparse then exits with code 2 before
`main`'s body runs). -/
def parseIntervalArg (arg : Option String) : Option Int :=
  match arg with
  | none => some (SESSION_INTERVAL_MINUTES : Int)
  | some s => pyInt s

/-- What a run of the host process did: the exit code of the process and the
observations of the `run_session` invocations that ran, in order. -/
structure MainTrace where
  exitCode : Nat
  sessions : List SessionObs
deriving DecidableEq

/-- CPython's `timedelta(minutes=i)` normalizes to days and raises
`OverflowError` unless the days component lies in `±999999999`; in whole
minutes that admits exactly `-999999999 * 1440 ≤ i`. -/
def TIMEDELTA_MIN_MINUTES : Int := -1439999998560

/-- Upper bound of `timedelta(minutes=i)`: `999999999 * 1440 + 1439` minutes
(999999999 days plus 23:59 still normalizes within range). -/
def TIMEDELTA_MAX_MINUTES : Int := 1439999999999

/-- Whole minutes from `datetime.min` (0001-01-01 00:00) to `datetime.max`
(9999-12-31 23:59): `3652058 * 1440 + 1439` (the ordinal distance between the
two dates is 3652058 days). -/
def DATETIME_MAX_MINUTES : Int := 5258964959

/-- Whether `schedule`'s `Job._schedule_next_run` raises `OverflowError` for
interval `i` (minutes) when the clock reads `nowMin` minutes after
`datetime.min`: it computes `timedelta(minutes=i)` and then
`datetime.now() + period`, so it raises when `i` exceeds the `timedelta`
range or when the sum leaves the representable `datetime` range. The clock is
modelled at whole-minute granularity; the sub-minute part of the real clock
can shift the exact boundary by at most one minute and no claim depends on
the boundary value itself. -/
def pyScheduleOverflow (nowMin : Nat) (i : Int) : Bool :=
  decide (i < TIMEDELTA_MIN_MINUTES ∨ TIMEDELTA_MAX_MINUTES < i ∨
    (nowMin : Int) + i < 0 ∨ DATETIME_MAX_MINUTES < (nowMin : Int) + i)

/-- The `while True: schedule.run_pending(); time.sleep(60)` loop of
continuous mode (lines 250-255). Each tick that fires runs `run_session` via
`Job.run`, which afterwards recomputes `next_run = datetime.now() + period`
and can itself raise `OverflowError`: the exception is not
`KeyboardInterrupt`, so it escapes the handler and ends the process with exit
code 1, keeping the invocations that already ran. Each tick carries the clock
value (minutes after `datetime.min`) its re-scheduling reads; when the tick
list is exhausted the operator's interrupt arrives during the sleep, the
handler absorbs it, and the process exits 0. -/
def mainLoop (custom : Option String) (i : Int) :
    List (SessionEnv × Nat) → SchedState → Nat × List SessionObs
  | [], _ => (0, [])
  | (env, reg) :: ticks, st =>
    let r := run_session custom env st
    if pyScheduleOverflow reg i then (1, [r.2])
    else
      let rest := mainLoop custom i ticks r.1
      (rest.1, r.2 :: rest.2)

/-- Embedding of `main` (lines 220-255) together with argparse's handling of
`--interval`. An unparsable interval argument makes argparse exit with code 2
before any invocation. `main`'s body performs no validation of the parsed
value: with `--once` it runs exactly one session and returns (process exit
0) without ever touching `schedule`. In continuous mode
`schedule.every(args.interval).minutes.do(run_session)` (line 243) runs
**before** the first `run_session()` (line 246) and eagerly computes
`datetime.now() + timedelta(minutes=interval)`; `regMin` is the clock that
registration reads, and when the computation overflows the uncaught
`OverflowError` ends the process with exit code 1 and zero invocations.
Otherwise the immediate first session runs and the loop follows, each tick's
re-scheduling again able to overflow. -/
def main (messageArg : Option String) (once : Bool) (intervalArg : Option String)
    (regMin : Nat) (env0 : SessionEnv)
    (tickEnvs : List (SessionEnv × Nat)) : MainTrace :=
  match parseIntervalArg intervalArg with
  | none => ⟨2, []⟩
  | some i =>
    if once then ⟨0, runTrace messageArg [env0] coldState⟩
    else if pyScheduleOverflow regMin i then ⟨1, []⟩
    else
      let r := run_session messageArg env0 coldState
      let rest := mainLoop messageArg i tickEnvs r.1
      ⟨rest.1, r.2 :: rest.2⟩

/-- First character of a string, if any; used to separate composed lines with
distinct fixed prefixes. -/
def firstCh (s : String) : Option Char := s.data.head?

/-- A rendered email-summary line: one carrying the two-space-dash indent the
composer prepends to a subject. -/
def isSummaryLine (line : String) : Bool := line.data.take 4 == "  - ".data

/-- The line element that distinguishes the final step's composed message. -/
def finalMarker : String := "【Session 5/5 - Reflection & Diary】"

/-! ## Helper lemmas -/

/-- Appending to a non-empty string does not change the first character. -/
theorem firstCh_append (p s : String) (hp : p ≠ "") :
    firstCh (p ++ s) = firstCh p := by
  have hd : p.data ≠ [] := by
    intro h
    exact hp (String.ext_iff.mpr (by simpa using h))
  cases hcase : p.data with
  | nil => exact absurd hcase hd
  | cons c rest =>
    simp [firstCh, String.data_append, hcase]

/-- Strings with different first characters are different. -/
theorem ne_of_firstCh {a b : String} (h : firstCh a ≠ firstCh b) : a ≠ b :=
  fun e => h (by rw [e])

/-- No string beginning with a non-`【` character is the final-step marker. -/
theorem ne_marker_of_head (p s : String) (hp : p ≠ "")
    (h : firstCh p ≠ some '【') : p ++ s ≠ finalMarker := by
  apply ne_of_firstCh
  rw [firstCh_append p s hp]
  intro he
  exact h (by rw [he]; rfl)

/-- `isSummaryLine` only looks at the first four characters, so it is stable
under appending to a string of length at least four. -/
theorem isSummaryLine_append (p s : String) (h : 4 ≤ p.data.length) :
    isSummaryLine (p ++ s) = isSummaryLine p := by
  simp [isSummaryLine, String.data_append, List.take_append_of_le_length h]

/-- Every composed system message starts with the header line, hence with
`S`. -/
theorem firstCh_build (now : String) (n : Nat) (f : Bool) (c : Option String)
    (er : Option EmailResult) :
    firstCh (build_system_message now n f c er) = some 'S' := by
  have h : build_system_message now n f c er
      = ("System notification:" ++ "\n")
        ++ pyJoin "\n" (("Current time: " ++ now)
            :: ((if f then finalBlock
                 else ["Session " ++ toString n ++ "/" ++ toString MAX_SESSIONS])
               ++ emailBlock er ++ customBlock c)) := rfl
  rw [h, firstCh_append _ _ (by decide)]
  decide

/-- The command line `run_session` hands to `subprocess.run`: the `timeout`
wrapper, the `claude` invocation with the composed message, and `--continue`
exactly when the incremented counter is strictly between 1 and
`MAX_SESSIONS`. -/
theorem run_session_cmd (custom : Option String) (env : SessionEnv) (st : SchedState) :
    (run_session custom env st).2.cmd
      = ["timeout", toString SESSION_TIMEOUT_MINUTES ++ "m", "claude", "--print",
         build_system_message env.nowStr (st.session_count + 1)
           (decide (st.session_count + 1 = MAX_SESSIONS)) custom
           (check_unread_emails env.emailLaunch)]
        ++ (if 1 < st.session_count + 1 ∧ st.session_count + 1 < MAX_SESSIONS
            then ["--continue"] else []) := rfl

/-- The plain step-marker line is never the final-step marker. -/
theorem session_line_ne_marker (n : Nat) :
    "Session " ++ toString n ++ "/" ++ toString MAX_SESSIONS ≠ finalMarker := by
  rw [String.append_assoc, String.append_assoc]
  exact ne_marker_of_head _ _ (by decide) (by decide)

/-- The plain step-marker line is never empty. -/
theorem session_line_ne_empty (n : Nat) :
    "Session " ++ toString n ++ "/" ++ toString MAX_SESSIONS ≠ "" := by
  simp [String.ext_iff, String.data_append]

/-- The unread-count header line is never the final-step marker. -/
theorem email_header_ne_marker (k : Nat) :
    "📬 You have " ++ toString k ++ " unread email(s):" ≠ finalMarker := by
  rw [String.append_assoc]
  exact ne_marker_of_head _ _ (by decide) (by decide)

/-- The email-notice section never emits the final-step marker line. -/
theorem emailBlock_marker_free (er : Option EmailResult) :
    finalMarker ∉ emailBlock er := by
  cases er with
  | none => simp [emailBlock]
  | some r =>
    simp only [emailBlock]
    split
    · intro hmem
      rcases List.mem_append.mp hmem with h | hfoot
      · rcases List.mem_append.mp h with hpre | hmap
        · rcases List.mem_cons.mp hpre with h1 | h1
          · exact absurd h1 (by decide)
          · rcases List.mem_cons.mp h1 with h2 | h2
            · exact absurd h2.symm (email_header_ne_marker r.count)
            · simp at h2
        · rcases List.mem_map.mp hmap with ⟨a, _, ha⟩
          exact ne_marker_of_head "  - " a (by decide) (by decide) ha
      · rcases List.mem_cons.mp hfoot with h1 | h1
        · exact absurd h1 (by decide)
        · simp at h1
    · simp

/-- The custom-message section never emits the final-step marker line. -/
theorem customBlock_marker_free (c : Option String) :
    finalMarker ∉ customBlock c := by
  simp only [customBlock]
  split
  · intro hmem
    rcases List.mem_cons.mp hmem with h1 | h1
    · exact absurd h1 (by decide)
    · rcases List.mem_cons.mp h1 with h2 | h2
      · exact ne_marker_of_head "Message: " _ (by decide) (by decide) h2.symm
      · simp at h2
  · simp

/-- Joining after appending two final elements splits into the join of the
front, the separator-joined pair appended. -/
theorem pyJoin_append_two (sep x y : String) :
    ∀ l : List String, l ≠ [] →
      pyJoin sep (l ++ [x, y]) = pyJoin sep l ++ sep ++ x ++ sep ++ y := by
  intro l
  induction l with
  | nil => intro h; exact absurd rfl h
  | cons a t ih =>
    intro _
    cases t with
    | nil =>
      show a ++ sep ++ (x ++ sep ++ y) = a ++ sep ++ x ++ sep ++ y
      simp [String.append_assoc]
    | cons b t' =>
      have h2 : pyJoin sep ((a :: b :: t') ++ [x, y])
          = a ++ sep ++ pyJoin sep ((b :: t') ++ [x, y]) := rfl
      have h3 : pyJoin sep (a :: b :: t') = a ++ sep ++ pyJoin sep (b :: t') := rfl
      rw [h2, ih (by simp), h3]
      simp [String.append_assoc]

/-- A subject line rendered by the email section satisfies `isSummaryLine`. -/
theorem isSummary_of_subject (s : String) : isSummaryLine ("  - " ++ s) = true := by
  rw [isSummaryLine_append _ _ (by decide)]
  decide

/-- Summary lines come only from the email-notice section: every other line
the composer emits fails `isSummaryLine`. -/
theorem countSummary_build (now : String) (n : Nat) (f : Bool)
    (c : Option String) (er : Option EmailResult) :
    (build_messages now n f c er).countP isSummaryLine
      = (emailBlock er).countP isSummaryLine := by
  have hA : isSummaryLine "System notification:" = false := by decide
  have hB : isSummaryLine ("Current time: " ++ now) = false := by
    rw [isSummaryLine_append _ _ (by decide)]; decide
  have hS : (if f then finalBlock
      else ["Session " ++ toString n ++ "/" ++ toString MAX_SESSIONS]).countP
        isSummaryLine = 0 := by
    cases f with
    | true =>
      show finalBlock.countP isSummaryLine = 0
      decide
    | false =>
      have hsess : isSummaryLine
          ("Session " ++ toString n ++ "/" ++ toString MAX_SESSIONS) = false := by
        rw [String.append_assoc, String.append_assoc,
          isSummaryLine_append _ _ (by decide)]
        decide
      simp [List.countP_cons, hsess]
  have hC : (customBlock c).countP isSummaryLine = 0 := by
    unfold customBlock
    split
    · have hm : isSummaryLine ("Message: " ++ c.getD "") = false := by
        rw [isSummaryLine_append _ _ (by decide)]; decide
      have h0 : isSummaryLine "" = false := by decide
      simp [List.countP_cons, hm, h0]
    · rfl
  unfold build_messages
  rw [List.countP_append, List.countP_append, List.countP_append, hC, hS]
  simp [List.countP_cons, hA, hB]

/-- The email-notice section never renders more than five summary lines, no
matter how many subjects the collaborator supplied. -/
theorem countSummary_emailBlock_le (er : Option EmailResult) :
    (emailBlock er).countP isSummaryLine ≤ 5 := by
  cases er with
  | none => simp [emailBlock]
  | some r =>
    simp only [emailBlock]
    split
    · rw [List.countP_append, List.countP_append]
      have hhdr : isSummaryLine
          ("📬 You have " ++ toString r.count ++ " unread email(s):") = false := by
        rw [String.append_assoc, isSummaryLine_append _ _ (by decide)]
        decide
      have hmap : ((r.emails.take 5).map (fun subject => "  - " ++ subject)).countP
          isSummaryLine = (r.emails.take 5).length := by
        rw [List.countP_map]
        exact List.countP_eq_length.mpr (fun a _ => isSummary_of_subject a)
      have htake : (r.emails.take 5).length ≤ 5 := List.length_take_le 5 r.emails
      have hpre : (["", "📬 You have " ++ toString r.count
          ++ " unread email(s):"]).countP isSummaryLine = 0 := by
        have h0 : isSummaryLine "" = false := by decide
        simp [List.countP_cons, hhdr, h0]
      have hfoot : (["Use 'python tools/receive_email.py --unread' to read them."]
          : List String).countP isSummaryLine = 0 := by decide
      omega
    · simp

/-- One invocation's state update, from a counter congruent to `k` modulo the
cycle length: the new counter is congruent to `k + 1`, and the cycle stamp is
overwritten exactly when the observed step number is 1 (that is, when
`k % MAX_SESSIONS = 0`). -/
theorem run_session_fst (custom : Option String) (env : SessionEnv)
    (k : Nat) (cs : Option Nat) :
    (run_session custom env ⟨k % MAX_SESSIONS, cs⟩).1
      = ⟨(k + 1) % MAX_SESSIONS,
         if k % MAX_SESSIONS = 0 then some env.nowT else cs⟩ := by
  simp only [run_session, SchedState.mk.injEq]
  constructor
  · simp only [MAX_SESSIONS]
    split <;> omega
  · by_cases hk : k % MAX_SESSIONS = 0
    · simp [hk]
    · have h1 : ¬(k % MAX_SESSIONS + 1 = 1) := by omega
      simp [hk, h1]

/-- The step number an invocation observes and logs is the incremented
counter. -/
theorem run_session_step (custom : Option String) (env : SessionEnv)
    (st : SchedState) :
    (run_session custom env st).2.step = st.session_count + 1 := rfl

/-- Master induction for the cycle bookkeeping: starting from a counter
congruent to `k` modulo `MAX_SESSIONS`, the observed step numbers are
`(k+i) % MAX_SESSIONS + 1` for `i = 0, 1, ...`, the final counter is
congruent to `k` plus the number of invocations, and the final cycle stamp is
that of the most recent step-1 invocation, the prior value persisting if none
occurred. -/
theorem runTrace_master (custom : Option String) :
    ∀ (envs : List SessionEnv) (k : Nat) (cs : Option Nat),
      (runTrace custom envs ⟨k % MAX_SESSIONS, cs⟩).map SessionObs.step
          = (List.range envs.length).map (fun i => (k + i) % MAX_SESSIONS + 1) ∧
      runState custom envs ⟨k % MAX_SESSIONS, cs⟩
          = ⟨(k + envs.length) % MAX_SESSIONS, orO (lastCycleStart k envs) cs⟩ := by
  intro envs
  induction envs with
  | nil =>
    intro k cs
    refine ⟨rfl, ?_⟩
    simp [runState, lastCycleStart, orO]
  | cons e t ih =>
    intro k cs
    have hfst := run_session_fst custom e k cs
    constructor
    · show ((run_session custom e ⟨k % MAX_SESSIONS, cs⟩).2
          :: runTrace custom t (run_session custom e ⟨k % MAX_SESSIONS, cs⟩).1).map
            SessionObs.step = _
      rw [List.map_cons, run_session_step, hfst, (ih (k + 1) _).1,
        show (e :: t).length = t.length + 1 from rfl,
        List.range_succ_eq_map, List.map_cons, List.map_map]
      have hhead : k % MAX_SESSIONS + 1 = (k + 0) % MAX_SESSIONS + 1 := by
        simp
      have htail : List.map (fun i => (k + 1 + i) % MAX_SESSIONS + 1)
            (List.range t.length)
          = List.map ((fun i => (k + i) % MAX_SESSIONS + 1) ∘ Nat.succ)
            (List.range t.length) := by
        apply List.map_congr_left
        intro i _
        show (k + 1 + i) % MAX_SESSIONS + 1 = (k + (i + 1)) % MAX_SESSIONS + 1
        rw [Nat.add_assoc, Nat.add_comm 1 i]
      exact congrArg₂ List.cons hhead htail
    · show runState custom t (run_session custom e ⟨k % MAX_SESSIONS, cs⟩).1 = _
      rw [hfst, (ih (k + 1) _).2]
      simp only [SchedState.mk.injEq]
      constructor
      · have h2 : k + 1 + t.length = k + (t.length + 1) := by omega
        rw [h2]
        rfl
      · simp only [lastCycleStart]
        cases hl : lastCycleStart (k + 1) t with
        | some v => simp [orO, hl]
        | none =>
          by_cases hk : k % MAX_SESSIONS = 0 <;> simp [orO, hl, hk]

/-- The runner produces one observation per supplied environment. -/
theorem runTrace_length (custom : Option String) :
    ∀ (envs : List SessionEnv) (st : SchedState),
      (runTrace custom envs st).length = envs.length := by
  intro envs
  induction envs with
  | nil => intro st; rfl
  | cons e t ih =>
    intro st
    simp [runTrace, ih]

/-- A fixed benign environment used to instantiate closed statements about
`main`. -/
def envC : SessionEnv :=
  ⟨0, "2025-01-01 00:00:00", .scriptMissing, .exited 0, .absent⟩

/-- When no tick's re-scheduling overflows, the continuous loop ends by the
operator's interrupt and reports exit code 0. -/
theorem mainLoop_exit (custom : Option String) (i : Int) :
    ∀ (ticks : List (SessionEnv × Nat)) (st : SchedState),
      (∀ p ∈ ticks, pyScheduleOverflow p.2 i = false) →
      (mainLoop custom i ticks st).1 = 0 := by
  intro ticks
  induction ticks with
  | nil => intro st _; rfl
  | cons p rest ih =>
    intro st hall
    obtain ⟨env, reg⟩ := p
    have hp : pyScheduleOverflow reg i = false := hall (env, reg) (by simp)
    simp only [mainLoop, hp, Bool.false_eq_true, if_false]
    exact ih _ (fun q hq => hall q (by simp [hq]))

/-! ## Claim theorems -/

/-- C1: From a cold start, for every sequence of invocations and every
combination of invocation outcomes (the environments carry arbitrary exit
codes, timeouts and launch failures), the observed step numbers are
`1, 2, ..., MAX_SESSIONS, 1, 2, ...` (the `i`-th invocation observes
`i % MAX_SESSIONS + 1`); the counter after `n` invocations is
`n % MAX_SESSIONS`, so it resets to 0 exactly when it reaches
`MAX_SESSIONS`; and `cycle_start` equals the clock value of the most recent
invocation whose index is divisible by `MAX_SESSIONS` — precisely the
invocations that observe step 1, so it is stamped exactly once per cycle, on
step 1. -/
theorem claim_C1_cycle_invariant (custom : Option String)
    (envs : List SessionEnv) :
    (runTrace custom envs coldState).map SessionObs.step
        = (List.range envs.length).map (fun i => i % MAX_SESSIONS + 1) ∧
    (runState custom envs coldState).session_count = envs.length % MAX_SESSIONS ∧
    (runState custom envs coldState).cycle_start = lastCycleStart 0 envs := by
  have hcold : coldState = (⟨0 % MAX_SESSIONS, (none : Option Nat)⟩ : SchedState) := rfl
  have h := runTrace_master custom envs 0 none
  refine ⟨?_, ?_, ?_⟩
  · rw [hcold, h.1]
    simp
  · rw [hcold, h.2]
    simp
  · rw [hcold, h.2]
    cases hl : lastCycleStart 0 envs <;> simp [orO, hl]

/-- C6 counterexample: `--once --interval 0` supplies a non-positive (hence,
per the claim, invalid) interval, yet the process performs no detection at
all: the argument parses, a session invocation runs, and the process exits
0 — not nonzero before any invocation as the claim requires. -/
theorem claim_C6_counterexample :
    parseIntervalArg (some "0") = some 0 ∧ ¬((0 : Int) > 0) ∧
    (main none true (some "0") 0 envC []).exitCode = 0 ∧
    (main none true (some "0") 0 envC []).sessions.length = 1 := by
  refine ⟨by decide, by decide, rfl, rfl⟩

/-- C6 amended: the process never validates the parsed interval's value — an
interval argument that fails integer parsing makes argparse exit with code 2
before any invocation, but every successfully parsed integer, non-positive
included, is accepted unchecked. In `--once` mode exactly one invocation runs
and the process exits 0, whatever the interval. In continuous mode the eager
schedule registration precedes the first invocation: when the interval lies
outside the `datetime`/`timedelta`-representable range relative to the
registration clock, the uncaught `OverflowError` ends the process with exit
code 1 and zero invocations — a crash independent of the interval's sign, not
a reported range check; otherwise the immediate first invocation always runs,
and the process exits 0 when every tick's re-scheduling also stays
representable and the run ends by operator interrupt. Timeout and step count
are fixed positive constants, not configuration. -/
theorem claim_C6_no_interval_validation (messageArg : Option String)
    (intervalArg : Option String) (regMin : Nat) (env0 : SessionEnv)
    (tickEnvs : List (SessionEnv × Nat)) :
    (parseIntervalArg intervalArg = none →
        ∀ once : Bool, main messageArg once intervalArg regMin env0 tickEnvs
          = ⟨2, []⟩) ∧
    (∀ i : Int, parseIntervalArg intervalArg = some i →
      ((main messageArg true intervalArg regMin env0 tickEnvs).exitCode = 0 ∧
       (main messageArg true intervalArg regMin env0 tickEnvs).sessions.length
          = 1) ∧
      (pyScheduleOverflow regMin i = true →
        main messageArg false intervalArg regMin env0 tickEnvs = ⟨1, []⟩) ∧
      (pyScheduleOverflow regMin i = false →
        1 ≤ (main messageArg false intervalArg regMin env0 tickEnvs).sessions.length ∧
        ((∀ p ∈ tickEnvs, pyScheduleOverflow p.2 i = false) →
          (main messageArg false intervalArg regMin env0 tickEnvs).exitCode
            = 0))) := by
  constructor
  · intro h once
    simp [main, h]
  · intro i h
    refine ⟨?_, ?_, ?_⟩
    · constructor
      · simp [main, h]
      · simp [main, h, runTrace_length]
    · intro hov
      simp [main, h, hov]
    · intro hov
      constructor
      · simp [main, h, hov]
      · intro hall
        simp only [main, h, hov, Bool.false_eq_true, if_false]
        exact mainLoop_exit messageArg i tickEnvs _ hall

/-- Witness for C6 amended: a syntactically invalid interval argument exits
with code 2 and zero invocations; a parsed interval beyond the representable
range crashes continuous mode nonzero with zero invocations while `--once`
still runs it. -/
theorem claim_C6_witness :
    main none true (some "abc") 0 envC [] = ⟨2, []⟩ ∧
    main none false (some "5000000000") 1065456749 envC [] = ⟨1, []⟩ ∧
    (main none true (some "5000000000") 1065456749 envC []).exitCode = 0 := by
  refine ⟨(claim_C6_no_interval_validation none (some "abc") 0 envC []).1
      (by decide) true, ?_, ?_⟩
  · exact (((claim_C6_no_interval_validation none (some "5000000000") 1065456749
      envC []).2 5000000000 (by decide)).2.1) (by decide)
  · exact (((claim_C6_no_interval_validation none (some "5000000000") 1065456749
      envC []).2 5000000000 (by decide)).1).1

/-- C2: For every invocation, the command passed to the external process
carries the `--continue` flag if and only if the observed step number `n`
(the incremented counter) satisfies `1 < n < MAX_SESSIONS`; in particular the
flag is absent for step 1 and for step `MAX_SESSIONS`. -/
theorem claim_C2_continue_flag (custom : Option String) (env : SessionEnv)
    (st : SchedState) :
    ("--continue" ∈ (run_session custom env st).2.cmd)
      ↔ (1 < st.session_count + 1 ∧ st.session_count + 1 < MAX_SESSIONS) := by
  have hne : ¬("--continue" = build_system_message env.nowStr (st.session_count + 1)
      (decide (st.session_count + 1 = MAX_SESSIONS)) custom
      (check_unread_emails env.emailLaunch)) := by
    intro h
    have hS := firstCh_build env.nowStr (st.session_count + 1)
      (decide (st.session_count + 1 = MAX_SESSIONS)) custom
      (check_unread_emails env.emailLaunch)
    rw [← h] at hS
    exact absurd hS (by decide)
  have h1 : ¬("--continue" = "timeout") := by decide
  have h2 : ¬("--continue" = toString SESSION_TIMEOUT_MINUTES ++ "m") := by decide
  have h3 : ¬("--continue" = "claude") := by decide
  have h4 : ¬("--continue" = "--print") := by decide
  rw [run_session_cmd]
  by_cases hc : 1 < st.session_count + 1 ∧ st.session_count + 1 < MAX_SESSIONS
  · simp [hc]
  · simp [hc, hne, h1, h2, h3, h4]

/-- C9: For every two diary-store contents and otherwise identical inputs
(wall clock, email-subprocess behavior, session-subprocess behavior, global
state, configured custom message), `run_session` produces the same state
update and the same observables (composed message, command line, outcome):
the diary store cannot influence any scheduler behavior, because
`run_session` never invokes `check_diary_written`. -/
theorem claim_C9_diary_noninterference (custom : Option String)
    (nowT : Nat) (nowStr : String) (el : EmailLaunch) (cl : LaunchResult)
    (d1 d2 : DiaryStore) (st : SchedState) :
    run_session custom ⟨nowT, nowStr, el, cl, d1⟩ st
      = run_session custom ⟨nowT, nowStr, el, cl, d2⟩ st := rfl

/-- C3: The runner's outcome classification is a total (hence
exception-free), deterministic function of the launch result, and it is
exhaustive over the three-way taxonomy: exit code 0 is `completed`, exit code
124 is `timedOut`, and every other exit code, the supervisory timeout, and
every launch failure is `failed` with a human-readable reason. -/
theorem claim_C3_outcome_classification :
    classifyOutcome (.exited 0) = .completed ∧
    classifyOutcome (.exited 124) = .timedOut ∧
    (∀ code : Int, code ≠ 0 → code ≠ 124 →
      classifyOutcome (.exited code)
        = .failed ("exited with code " ++ toString code)) ∧
    classifyOutcome .supervisoryTimeout = .failed "timed out (Python level)" ∧
    (∀ msg : String, classifyOutcome (.raised msg) = .failed ("error: " ++ msg)) := by
  refine ⟨rfl, rfl, ?_, rfl, fun _ => rfl⟩
  intro code h0 h124
  unfold classifyOutcome
  split <;> simp_all

/-- Witness for C3: exit code 7 is neither 0 nor 124 and classifies as
`failed` with the log text of the source's else-branch. -/
theorem claim_C3_witness :
    classifyOutcome (.exited 7) = .failed ("exited with code " ++ toString (7 : Int)) :=
  claim_C3_outcome_classification.2.2.1 7 (by decide) (by decide)

/-- C4: the diary-freshness check returns `false` on an absent store, on any
read/parse error, on an empty store, on a missing or empty `datetime` string
in the latest entry, and on an unparsable timestamp; when the latest entry's
timestamp parses to `t`, the check returns `true` exactly when `t` is strictly
greater than the cycle-start instant. Totality of the Lean function mirrors
the Python catch-all: no input raises to the caller. -/
theorem claim_C4_diary_freshness (since : Nat) :
    check_diary_written .absent since = false ∧
    check_diary_written .readError since = false ∧
    check_diary_written (.parsed []) since = false ∧
    (∀ (entries : List DiaryEntry) (e : DiaryEntry),
      entries.getLast? = some e →
        ((e.datetime = none ∨ e.datetime = some "") →
            check_diary_written (.parsed entries) since = false) ∧
        (∀ s : String, e.datetime = some s → strptimeDT s = none →
            check_diary_written (.parsed entries) since = false) ∧
        (∀ (s : String) (t : Nat), e.datetime = some s → strptimeDT s = some t →
            (check_diary_written (.parsed entries) since = true ↔ since < t))) := by
  refine ⟨rfl, rfl, rfl, ?_⟩
  intro entries e hlast
  refine ⟨?_, ?_, ?_⟩
  · rintro (hdt | hdt) <;>
      simp [check_diary_written, hlast, hdt]
  · intro s hdt hparse
    rcases eq_or_ne s "" with rfl | hs
    · simp [check_diary_written, hlast, hdt]
    · simp [check_diary_written, hlast, hdt, hs, hparse]
  · intro s t hdt hparse
    have hs : s ≠ "" := by
      intro h
      subst h
      rw [show strptimeDT "" = none from rfl] at hparse
      cases hparse
    simp [check_diary_written, hlast, hdt, hs, hparse]

/-- Witness for C4: a one-entry store whose timestamp parses; the check
returns `true` against cycle start 0. -/
theorem claim_C4_witness :
    check_diary_written (.parsed [⟨some "2025-01-02 03:04:05"⟩]) 0 = true :=
  (((claim_C4_diary_freshness 0).2.2.2 [⟨some "2025-01-02 03:04:05"⟩]
      ⟨some "2025-01-02 03:04:05"⟩ rfl).2.2 "2025-01-02 03:04:05"
      (encodeDT 2025 1 2 3 4 5) rfl (by decide)).mpr (by decide)

/-- C10: `check_unread_emails` is a total function of the subprocess behavior
(no exception propagates); every non-`none` result has its `count` field equal
to the length of its `emails` list; and a missing script, a timeout, a raised
exception, or a non-zero exit code each yield `none`, never a partial
result. -/
theorem claim_C10_email_check_total :
    (∀ (launch : EmailLaunch) (r : EmailResult),
        check_unread_emails launch = some r → r.count = r.emails.length) ∧
    check_unread_emails .scriptMissing = none ∧
    check_unread_emails .timedOut = none ∧
    (∀ msg : String, check_unread_emails (.raised msg) = none) ∧
    (∀ (code : Int) (out err : String), code ≠ 0 →
        check_unread_emails (.exited code out err) = none) := by
  refine ⟨?_, rfl, rfl, fun _ => rfl, ?_⟩
  · intro launch r h
    cases launch with
    | scriptMissing => exact absurd h (by simp [check_unread_emails])
    | timedOut => exact absurd h (by simp [check_unread_emails])
    | raised msg => exact absurd h (by simp [check_unread_emails])
    | exited code out err =>
      simp only [check_unread_emails] at h
      split at h
      · cases h
      · split at h
        · injection h with h2
          subst h2
          rfl
        · injection h with h2
          subst h2
          rfl
  · intro code out err hcode
    simp [check_unread_emails, hcode]

/-- Witness for C10: a successful run with two subject lines yields a result
whose count equals the length of its subject list. -/
theorem claim_C10_witness :
    (EmailResult.mk 2 ["hello", "again"]).count
      = (EmailResult.mk 2 ["hello", "again"]).emails.length :=
  claim_C10_email_check_total.1
    (.exited 0 "📌 Subject: hello\nskip\n📌 Subject:  again \n" "")
    ⟨2, ["hello", "again"]⟩ (by decide)

/-- The email-notice section is either empty or ends with its fixed footer
line. -/
theorem emailBlock_getLast (er : Option EmailResult) :
    emailBlock er = [] ∨ (emailBlock er).getLast?
      = some "Use 'python tools/receive_email.py --unread' to read them." := by
  cases er with
  | none => exact Or.inl rfl
  | some r =>
    simp only [emailBlock]
    split
    · right
      rw [List.getLast?_append_of_ne_nil _ (by simp)]
      rfl
    · exact Or.inl rfl

/-- C7: Reading "the message contains the marker" as "the marker is one of the
lines the Composer emits" (the composed string is exactly these lines joined
by newlines), the final-step message contains the reflection marker line for
every combination of optional inputs, and no non-final message ever contains
it: every line a non-final message can emit either is a fixed string different
from the marker or carries a fixed prefix (`Current time: `, `Session `,
`📬 You have `, `  - `, `Message: `, `Use `) whose first character differs
from the marker's. -/
theorem claim_C7_final_marker (now : String) (n : Nat) (c : Option String)
    (er : Option EmailResult) :
    finalMarker ∈ build_messages now n true c er ∧
    finalMarker ∉ build_messages now n false c er := by
  constructor
  · have hred : build_messages now n true c er
        = (["System notification:", "Current time: " ++ now] ++ finalBlock)
          ++ emailBlock er ++ customBlock c := rfl
    rw [hred]
    have hm : finalMarker ∈ finalBlock := by decide
    exact List.mem_append_left _
      (List.mem_append_left _ (List.mem_append_right _ hm))
  · have hred : build_messages now n false c er
        = (["System notification:", "Current time: " ++ now]
            ++ ["Session " ++ toString n ++ "/" ++ toString MAX_SESSIONS])
          ++ emailBlock er ++ customBlock c := rfl
    rw [hred]
    intro hmem
    rcases List.mem_append.mp hmem with h | hcust
    · rcases List.mem_append.mp h with h1 | hemail
      · rcases List.mem_append.mp h1 with hhdr | hsess
        · rcases List.mem_cons.mp hhdr with h2 | h2
          · exact absurd h2 (by decide)
          · rcases List.mem_cons.mp h2 with h3 | h3
            · exact ne_marker_of_head "Current time: " now (by decide)
                (by decide) h3.symm
            · simp at h3
        · rcases List.mem_cons.mp hsess with h2 | h2
          · exact absurd h2.symm (session_line_ne_marker n)
          · simp at h2
      · exact emailBlock_marker_free er hemail
    · exact customBlock_marker_free c hcust

/-- C8: A non-empty annotation is rendered as the message's final section — a
blank separator line then `Message: ` followed by the annotation verbatim —
after all other sections; the empty annotation (Python-falsy, like `None`)
produces nothing; and with no annotation the composed line list never ends in
a blank line, so no trailing blank-line artifact arises. -/
theorem claim_C8_annotation_last (now : String) (n : Nat) (f : Bool)
    (er : Option EmailResult) (c : String) (hc : c ≠ "") :
    build_messages now n f (some c) er
        = build_messages now n f none er ++ ["", "Message: " ++ c] ∧
    build_system_message now n f (some c) er
        = build_system_message now n f none er ++ "\n" ++ "\n" ++ ("Message: " ++ c) ∧
    build_system_message now n f (some "") er = build_system_message now n f none er ∧
    (build_messages now n f none er).getLast? ≠ some "" := by
  have hcb : customBlock (some c) = ["", "Message: " ++ c] := by
    simp [customBlock, pyTruthyStr, hc]
  have hnone : customBlock none = ([] : List String) := rfl
  have hlist : build_messages now n f (some c) er
      = build_messages now n f none er ++ ["", "Message: " ++ c] := by
    unfold build_messages
    rw [hcb, hnone, List.append_nil]
  refine ⟨hlist, ?_, ?_, ?_⟩
  · unfold build_system_message
    rw [hlist, pyJoin_append_two _ _ _ _ (by simp [build_messages]),
      String.append_empty]
  · unfold build_system_message build_messages
    rw [show customBlock (some "") = ([] : List String) from rfl, hnone]
  · have hbase : build_messages now n f none er
        = (["System notification:", "Current time: " ++ now]
            ++ (if f then finalBlock
                else ["Session " ++ toString n ++ "/" ++ toString MAX_SESSIONS]))
          ++ emailBlock er := by
      unfold build_messages
      rw [hnone, List.append_nil]
    rcases emailBlock_getLast er with he | he
    · rw [hbase, he, List.append_nil]
      cases f with
      | true =>
        show (["System notification:", "Current time: " ++ now]
            ++ finalBlock).getLast? ≠ some ""
        rw [List.getLast?_append_of_ne_nil _ (by decide)]
        decide
      | false =>
        show (["System notification:", "Current time: " ++ now]
            ++ ["Session " ++ toString n ++ "/" ++ toString MAX_SESSIONS]).getLast?
          ≠ some ""
        rw [List.getLast?_append_of_ne_nil _ (by simp)]
        simp [session_line_ne_empty n]
    · have hnil : emailBlock er ≠ [] := by
        intro h
        rw [h] at he
        cases he
      rw [hbase, List.getLast?_append_of_ne_nil _ hnil, he]
      decide

/-- Witness for C8: a concrete non-empty annotation is appended verbatim as
the final section. -/
theorem claim_C8_witness :
    build_system_message "2025-01-01 00:00:00" 1 false (some "hello") none
      = build_system_message "2025-01-01 00:00:00" 1 false none none
        ++ "\n" ++ "\n" ++ ("Message: " ++ "hello") :=
  (claim_C8_annotation_last "2025-01-01 00:00:00" 1 false none "hello"
    (by decide)).2.1

/-- C5: A notices result reporting 7 pending items with 7 subjects composes to
the email section listing exactly the first 5 subjects as summary lines, under
a header that displays the full count 7 — the indication that more than the 5
listed exist; the whole composed message then carries exactly 5 summary lines,
and for every collaborator result whatsoever the composed message carries at
most 5 summary lines. -/
theorem claim_C5_display_cap (now : String) (n : Nat) (f : Bool)
    (c : Option String) (er : Option EmailResult)
    (s1 s2 s3 s4 s5 s6 s7 : String) :
    emailBlock (some ⟨7, [s1, s2, s3, s4, s5, s6, s7]⟩)
      = ["", "📬 You have " ++ toString 7 ++ " unread email(s):",
         "  - " ++ s1, "  - " ++ s2, "  - " ++ s3, "  - " ++ s4, "  - " ++ s5,
         "Use 'python tools/receive_email.py --unread' to read them."] ∧
    (build_messages now n f c
        (some ⟨7, [s1, s2, s3, s4, s5, s6, s7]⟩)).countP isSummaryLine = 5 ∧
    (build_messages now n f c er).countP isSummaryLine ≤ 5 := by
  refine ⟨rfl, ?_, ?_⟩
  · rw [countSummary_build]
    have h0 : isSummaryLine "" = false := by decide
    have hh : isSummaryLine ("📬 You have " ++ toString 7
        ++ " unread email(s):") = false := by decide
    have hf : isSummaryLine
        "Use 'python tools/receive_email.py --unread' to read them." = false := by
      decide
    show (["", "📬 You have " ++ toString 7 ++ " unread email(s):",
         "  - " ++ s1, "  - " ++ s2, "  - " ++ s3, "  - " ++ s4, "  - " ++ s5,
         "Use 'python tools/receive_email.py --unread' to read them."]).countP
        isSummaryLine = 5
    simp [List.countP_cons, h0, hh, hf, isSummary_of_subject]
  · rw [countSummary_build]
    exact countSummary_emailBlock_le er

end AutoSched
